import Mathlib

/-!
Shallow embedding of `app.py` from the Image-Tracker repository.

The Python program is a small Flask application. We embed its pure logic
directly: the SQLite hits table becomes an explicit list of rows threaded
through the route handlers, the outbound geolocation HTTP call becomes a
parameter describing the network's answer (or an exception), the clock is
an injected timestamp string, and the filesystem is a list of existing
paths. Floating-point geolocation coordinates and PDF coordinates are
modelled over ℚ (the layout arithmetic in the source is exact real
arithmetic on small values).
-/

namespace ImageTracker

/-! ### Configuration (app.py lines 22-26) -/

/-- `OUTDIR = "generated"` (app.py line 25). -/
def OUTDIR : String := "generated"

/-- Default admin password: `ADMIN_PASS = os.environ.get("ADMIN_PASS", "admin")`
(app.py line 23).  The environment-supplied value is a parameter of the
login model; this is the default. -/
def ADMIN_PASS_default : String := "admin"

/-! ### Database model (app.py lines 39-88)

The `hits` table has an `INTEGER PRIMARY KEY AUTOINCREMENT` id, so rows
carry strictly increasing ids in insertion order; we keep the rows in
insertion order, which is exactly the order of ascending ids. -/

/-- One row of the `hits` table (app.py lines 46-59). -/
structure HitRow where
  id : Nat
  doc_ref : String
  user_id : String
  ip : String
  ua : String
  ts : String
  lat : Option ℚ
  lon : Option ℚ
  city : Option String
  region : Option String
  country : Option String
deriving DecidableEq, Repr

/-- The arguments of one `insert_hit` call (app.py line 70); `ts` is the
server clock value `datetime.datetime.utcnow().isoformat()+"Z"` captured at
call time, injected here as data. -/
structure HitArgs where
  doc_ref : String
  user_id : String
  ip : String
  ua : String
  ts : String
  lat : Option ℚ
  lon : Option ℚ
  city : Option String
  region : Option String
  country : Option String
deriving DecidableEq, Repr

/-- The hits store: the next AUTOINCREMENT id together with the rows in
insertion (= ascending id) order. -/
structure HitsDB where
  nextId : Nat
  rows : List HitRow
deriving DecidableEq, Repr

/-- The row a single `INSERT INTO hits` statement creates, given the
AUTOINCREMENT id it is assigned. -/
def mkRow (id : Nat) (a : HitArgs) : HitRow :=
  ⟨id, a.doc_ref, a.user_id, a.ip, a.ua, a.ts,
   a.lat, a.lon, a.city, a.region, a.country⟩

/-- `insert_hit` (app.py lines 70-78): appends one row, with the
auto-incremented id. -/
def insert_hit (db : HitsDB) (a : HitArgs) : HitsDB :=
  { nextId := db.nextId + 1
  , rows := db.rows ++ [mkRow db.nextId a] }

/-- `fetch_hits(limit=1000)` (app.py lines 80-86):
`SELECT * FROM hits ORDER BY id DESC LIMIT ?`.  Since rows are kept in
ascending-id order, descending id order is the reverse. -/
def fetch_hits (db : HitsDB) (limit : Nat) : List HitRow :=
  db.rows.reverse.take limit

/-- `fetch_hits` with its Python default argument `limit=1000`. -/
def fetch_hits_default (db : HitsDB) : List HitRow :=
  fetch_hits db 1000

/-- Folding `insert_hit` over a list of calls. -/
def insertMany (db : HitsDB) (l : List HitArgs) : HitsDB :=
  l.foldl insert_hit db

/-- The rows that a sequence of `insert_hit` calls creates, starting at a
given AUTOINCREMENT id. -/
def mkRows (startId : Nat) : List HitArgs → List HitRow
  | [] => []
  | a :: rest => mkRow startId a :: mkRows (startId + 1) rest

/-! ### Geolocation helper `geo_ip` (app.py lines 94-101) -/

/-- The JSON body the ip-api.com endpoint may return (fields requested on
app.py line 96); any field may be missing (`r.get` then yields `None`). -/
structure GeoJson where
  status : Option String
  lat : Option ℚ
  lon : Option ℚ
  city : Option String
  regionName : Option String
  country : Option String
deriving DecidableEq, Repr

/-- Outcome of the outbound `requests.get(...).json()` call: either some
exception (connection error, timeout, malformed JSON, ...) or a decoded
body. -/
inductive GeoOutcome where
  | exn : GeoOutcome
  | resp : GeoJson → GeoOutcome
deriving DecidableEq, Repr

/-- `geo_ip(ip)` (app.py lines 94-101).  The bare `except: pass` catches
every exception, after which the function falls through to
`return None, None, None, None, None`; a response whose `status` is not
`"success"` falls through to the same return. -/
def geo_ip (outcome : GeoOutcome) :
    Option ℚ × Option ℚ × Option String × Option String × Option String :=
  match outcome with
  | .exn => (none, none, none, none, none)
  | .resp r =>
      if r.status = some "success" then
        (r.lat, r.lon, r.city, r.regionName, r.country)
      else
        (none, none, none, none, none)

/-! ### String primitives

Executable models of the Python string methods the app uses
(`str.startswith`, `str.split(sep)`, `str.strip()`, `str.lower()`),
written over the character list so they reduce structurally. -/

/-- Python `s.startswith(p)`. -/
def strStartsWith (s p : String) : Bool :=
  p.data.isPrefixOf s.data

/-- Split a character list on every occurrence of `c`
(Python `str.split(sep)` semantics: `"" ↦ [""]`, empty pieces kept). -/
def splitChAux (c : Char) : List Char → List (List Char)
  | [] => [[]]
  | x :: xs =>
      if x = c then [] :: splitChAux c xs
      else
        match splitChAux c xs with
        | ys :: rest => (x :: ys) :: rest
        | [] => [[x]]

/-- Python `s.split(c)` for a one-character separator. -/
def pySplit (c : Char) (s : String) : List String :=
  (splitChAux c s.data).map List.asString

/-- Python `s.strip()`: whitespace removed from both ends. -/
def pyStrip (s : String) : String :=
  (((s.data.dropWhile Char.isWhitespace).reverse.dropWhile
      Char.isWhitespace).reverse).asString

/-- ASCII lowering of one character (what `str.lower` does on the
ASCII file names this app builds). -/
def lowerCh (c : Char) : Char :=
  if 65 ≤ c.toNat ∧ c.toNat ≤ 90 then Char.ofNat (c.toNat + 32) else c

/-- Python `s.lower()`. -/
def pyLower (s : String) : String :=
  (s.data.map lowerCh).asString

/-! ### Path handling

`os.path.join(dir, name)` with a one-component `dir` that has no trailing
separator: if `name` is absolute the left part is discarded, otherwise the
two are joined with `/`. -/

/-- `os.path.join(OUTDIR, name)` as used on app.py lines 194 and 201. -/
def joinPath (dir name : String) : String :=
  if strStartsWith name "/" then name else dir ++ "/" ++ name

/-- Whether a path lies inside (strictly below) a directory: it extends
`dir ++ "/"` and no component is the parent-directory step `".."`. -/
def insideDir (dir path : String) : Bool :=
  strStartsWith path (dir ++ "/") && !(pySplit '/' path).contains ".."

/-! ### PDF helper `create_pdf_with_clickable_image` (app.py lines 107-122) -/

/-- `letter` from `reportlab.lib.pagesizes`: (612, 792) points. -/
def letterW : ℚ := 612

/-- Page height of US Letter in points. -/
def letterH : ℚ := 792

/-- The rectangle at which `drawImage` places the image. -/
structure ImageRect where
  x : ℚ
  y : ℚ
  draw_w : ℚ
  draw_h : ℚ
deriving DecidableEq, Repr

/-- The observable content of the produced PDF file: how many pages were
emitted (`showPage` count), where the image was drawn, the scale used, and
the `linkURL` annotations (rectangle `(x1, y1, x2, y2)` and target URL). -/
structure PdfDoc where
  pages : Nat
  image : ImageRect
  scale : ℚ
  links : List ((ℚ × ℚ × ℚ × ℚ) × String)
deriving DecidableEq, Repr

/-- `create_pdf_with_clickable_image(image_path, pdf_path, page_size=letter,
url=None)` (app.py lines 107-122), for an image of size `iw × ih`, at the
default page size `letter` (the only call site, app.py line 167, passes no
`page_size`).  `if url:` guards the single `linkURL` call. -/
def create_pdf_with_clickable_image (iw ih : ℚ) (url : Option String) : PdfDoc :=
  let margin : ℚ := 36
  let max_w : ℚ := letterW - 2 * margin
  let max_h : ℚ := letterH - 2 * margin
  let scale : ℚ := min (max_w / iw) (max_h / ih)
  let draw_w : ℚ := iw * scale
  let draw_h : ℚ := ih * scale
  let x : ℚ := (letterW - draw_w) / 2
  let y : ℚ := (letterH - draw_h) / 2
  { pages := 1
  , image := ⟨x, y, draw_w, draw_h⟩
  , scale := scale
  , links :=
      match url with
      | some u => [((x, y, x + draw_w, y + draw_h), u)]
      | none => [] }

/-! ### Document generation: the POST branch of `make` (app.py lines 152-175) -/

/-- An uploaded multipart file: its client-supplied filename and whether its
bytes decode as an image (with the decoded dimensions and mode if so). -/
inductive Upload where
  | valid (filename : String) (w h : Nat) (mode : String)
  | corrupt (filename : String)
deriving DecidableEq, Repr

/-- Filename of an upload. -/
def Upload.filename : Upload → String
  | .valid f _ _ _ => f
  | .corrupt f => f

/-- A decoded in-memory image: dimensions, mode, and, for a synthesized
canvas, the constant fill colour. -/
structure Img where
  w : Nat
  h : Nat
  mode : String
  fill : Option (Nat × Nat × Nat × Nat)
deriving DecidableEq, Repr

/-- `Image.open(file.stream).convert("RGBA") if file and file.filename else
Image.new("RGBA",(800,600),(255,255,255,255))` (app.py line 155).
`Image.open` on undecodable bytes raises `UnidentifiedImageError`, which
`make` does not catch, so it propagates to the caller; we return it in
`Except`. -/
def makeBaseImage (file : Option Upload) : Except String Img :=
  match file with
  | some (.valid f w h _) =>
      if f ≠ "" then .ok ⟨w, h, "RGBA", none⟩
      else .ok ⟨800, 600, "RGBA", some (255, 255, 255, 255)⟩
  | some (.corrupt f) =>
      if f ≠ "" then .error "UnidentifiedImageError"
      else .ok ⟨800, 600, "RGBA", some (255, 255, 255, 255)⟩
  | none => .ok ⟨800, 600, "RGBA", some (255, 255, 255, 255)⟩

/-- `url_for('clickable_redirect', doc_ref=doc_ref, _external=True)`
(app.py line 164): the external base URL followed by the route pattern
`/click/<doc_ref>` (app.py line 177). -/
def clickUrl (base doc_ref : String) : String :=
  base ++ "/click/" ++ doc_ref

/-- What the successful POST branch of `make` produces (app.py
lines 152-174): the identifier, the two artifact names, and the PDF
content. -/
structure MakeResult where
  doc_ref : String
  png_name : String
  pdf_name : String
  pdf : PdfDoc
deriving DecidableEq, Repr

/-- The POST branch of `make` once past the admin gate (app.py
lines 152-174).  `doc_ref` stands for `shortuuid.uuid()[:8]` (injected
randomness); `base` for the external URL root used by `url_for`. -/
def make_post (base doc_ref : String) (file : Option Upload) :
    Except String MakeResult :=
  match makeBaseImage file with
  | .error e => .error e
  | .ok img =>
      let fname := "document_" ++ doc_ref ++ ".png"
      let url := clickUrl base doc_ref
      let pdf_name := "document_" ++ doc_ref ++ ".pdf"
      let pdf := create_pdf_with_clickable_image (img.w : ℚ) (img.h : ℚ) (some url)
      .ok ⟨doc_ref, fname, pdf_name, pdf⟩

/-! ### Sessions, requests and responses -/

/-- Flask session state as this app uses it: the `admin` flag (app.py
lines 136, 150) and the optional `user_id` (app.py lines 183, 192). -/
structure Session where
  admin : Bool
  user_id : Option String
deriving DecidableEq, Repr

/-- The responses the modelled handlers can produce. -/
inductive Response where
  | redirectTo (endpoint : String)
  | externalRedirect (url : String)
  | renderTemplate (tmpl : String)
  | flashAndRender (msg tmpl : String)
  | notFound
  | sendFile (path downloadName mimetype : String)
deriving DecidableEq, Repr

/-- `login` POST branch (app.py lines 132-139): a correct password sets
`session["admin"] = True` and redirects to `make`; anything else flashes
"Wrong password" and re-renders the login template, leaving the session
untouched. -/
def login_post (adminPass : String) (s : Session) (password : String) :
    Session × Response :=
  if password = adminPass then
    ({ s with admin := true }, .redirectTo "make")
  else
    (s, .flashAndRender "Wrong password" "login.html")

/-- The admin gate at the top of `make` (app.py lines 150-151): with no
admin flag the handler immediately redirects to `login`. -/
def make_gate (s : Session) : Option Response :=
  if !s.admin then some (.redirectTo "login") else none

/-! ### Delivery-layer routes (app.py lines 177-206) -/

/-- `request.headers.get("X-Forwarded-For", request.remote_addr)
.split(",")[0].strip()` (app.py lines 180, 189). -/
def clientIp (xff : Option String) (remote : String) : String :=
  pyStrip ((pySplit ',' (xff.getD remote)).headD "")

/-- Per-request ambient data: forwarded-for header, peer address, user
agent, the geolocation service's answer for the client address, the
session, and the server clock reading. -/
structure RouteCtx where
  xff : Option String
  remote : String
  ua : String
  geo : GeoOutcome
  sess : Session
  now : String
deriving Repr

/-- Application state the routes touch: the hits store and the set of
paths existing on disk. -/
structure AppState where
  db : HitsDB
  files : List String
deriving DecidableEq, Repr

/-- The hit row arguments built by `clickable_redirect` and `dl_pdf`
(app.py lines 180-184 and 189-193): client ip, user agent, geolocation
result, `session.get("user_id","anonymous")`, server timestamp. -/
def hitArgsOf (doc_ref : String) (ctx : RouteCtx) : HitArgs :=
  let ip := clientIp ctx.xff ctx.remote
  let g := geo_ip ctx.geo
  { doc_ref := doc_ref
  , user_id := ctx.sess.user_id.getD "anonymous"
  , ip := ip
  , ua := ctx.ua
  , ts := ctx.now
  , lat := g.1
  , lon := g.2.1
  , city := g.2.2.1
  , region := g.2.2.2.1
  , country := g.2.2.2.2 }

/-- `clickable_redirect(doc_ref)` (app.py lines 177-185): records a hit,
then redirects to the fixed external URL. -/
def clickable_redirect (st : AppState) (doc_ref : String) (ctx : RouteCtx) :
    AppState × Response :=
  let db' := insert_hit st.db (hitArgsOf doc_ref ctx)
  ({ st with db := db' }, .externalRedirect "https://your-site.com/thank-you")

/-- `dl_pdf(doc_ref, pdfname)` (app.py lines 187-197): records a hit first,
then checks existence of `os.path.join(OUTDIR, pdfname)`; 404 if absent,
otherwise streams that file as `application/pdf`. -/
def dl_pdf (st : AppState) (doc_ref pdfname : String) (ctx : RouteCtx) :
    AppState × Response :=
  let db' := insert_hit st.db (hitArgsOf doc_ref ctx)
  let st' := { st with db := db' }
  let path := joinPath OUTDIR pdfname
  if st.files.contains path then
    (st', .sendFile path pdfname "application/pdf")
  else
    (st', .notFound)

/-- `mime_map.get(ext, "application/octet-stream")` (app.py line 205). -/
def mimeOf (ext : String) : String :=
  if ext = "svg" then "image/svg+xml"
  else if ext = "png" then "image/png"
  else if ext = "pdf" then "application/pdf"
  else "application/octet-stream"

/-- `download_generated(name)` (app.py lines 199-206): no hit recording;
404 if the joined path does not exist, otherwise streams it with a
content type from `name.lower().split(".")[-1]`. -/
def download_generated (st : AppState) (name : String) :
    AppState × Response :=
  let path := joinPath OUTDIR name
  if st.files.contains path then
    let ext := (pySplit '.' (pyLower name)).getLastD ""
    (st, .sendFile path name (mimeOf ext))
  else
    (st, .notFound)

/-! ### Concrete sample data (used to instantiate the theorems) -/

/-- A sample `insert_hit` argument tuple. -/
def argA : HitArgs :=
  ⟨"d1", "anonymous", "1.1.1.1", "ua", "2026-01-01T00:00:00Z",
   none, none, none, none, none⟩

/-- A second sample `insert_hit` argument tuple with a distinct `doc_ref`. -/
def argB : HitArgs :=
  { argA with doc_ref := "d2", ts := "2026-01-01T00:00:01Z" }

/-- An empty hits store whose AUTOINCREMENT counter is at 1. -/
def db0 : HitsDB := ⟨1, []⟩

/-- A sample request context: no forwarded-for header, geolocation lookup
raising, anonymous session. -/
def ctx0 : RouteCtx :=
  ⟨none, "203.0.113.7", "curl/8.0", .exn, ⟨false, none⟩, "2026-01-01T00:00:00Z"⟩

/-- App state with no hits and no files on disk. -/
def stEmpty : AppState := ⟨db0, []⟩

/-- App state in which only `generated/document_ab12.pdf` exists. -/
def stWithPdf : AppState := ⟨db0, ["generated/document_ab12.pdf"]⟩

/-- App state in which only `generated/document_ab12.png` exists. -/
def stWithPng : AppState := ⟨db0, ["generated/document_ab12.png"]⟩

/-- App state in which a file outside the output directory exists. -/
def stOutside : AppState := ⟨db0, ["/etc/passwd"]⟩

/-- The result the sample generation request (external base `http://h`,
identifier `ab12cd34`, no uploaded file) evaluates to. -/
def res0 : MakeResult :=
  match make_post "http://h" "ab12cd34" none with
  | .ok r => r
  | .error _ => ⟨"", "", "", create_pdf_with_clickable_image 1 1 none⟩

end ImageTracker

namespace ImageTracker

/-! ### Supporting lemmas -/

/-- A run of inserts creates one row per call. -/
theorem mkRows_length (startId : Nat) (l : List HitArgs) :
    (mkRows startId l).length = l.length := by
  induction l generalizing startId with
  | nil => rfl
  | cons a rest ih => simp [mkRows, ih]

/-- Folding `insert_hit` appends exactly the rows `mkRows` describes,
ids assigned consecutively from the store's counter. -/
theorem insertMany_rows (db : HitsDB) (l : List HitArgs) :
    (insertMany db l).rows = db.rows ++ mkRows db.nextId l := by
  induction l generalizing db with
  | nil => simp [insertMany, mkRows]
  | cons a rest ih =>
      show (insertMany (insert_hit db a) rest).rows = _
      rw [ih]
      simp [insert_hit, mkRows]

/-- Scaling a width by the min of two ratios whose first denominator is the
width keeps it within the first bound. -/
theorem scaleFitLeft (a b c : ℚ) (ha : 0 < a) :
    a * min (c / a) b ≤ c := by
  have h1 : a * min (c / a) b ≤ a * (c / a) :=
    mul_le_mul_of_nonneg_left (min_le_left _ _) ha.le
  have h2 : a * (c / a) = c := by field_simp
  linarith

/-- Scaling a height by the min of two ratios whose second denominator is
the height keeps it within the second bound. -/
theorem scaleFitRight (a b c : ℚ) (ha : 0 < a) :
    a * min b (c / a) ≤ c := by
  have h1 : a * min b (c / a) ≤ a * (c / a) :=
    mul_le_mul_of_nonneg_left (min_le_right _ _) ha.le
  have h2 : a * (c / a) = c := by field_simp
  linarith

/-! ### Claim theorems -/

/-- C3: for every input address, if the outbound lookup raises (or times
out — both surface as an exception of `requests.get`) or returns a body
whose `status` is not `"success"`, `geo_ip` returns the all-absent 5-tuple.
Raising is impossible by construction: `geo_ip` is a total function into
the tuple type. -/
theorem geo_ip_failure_all_absent (o : GeoOutcome)
    (h : o = .exn ∨ ∀ r, o = .resp r → r.status ≠ some "success") :
    geo_ip o = (none, none, none, none, none) := by
  rcases h with h | h
  · subst h; rfl
  · cases o with
    | exn => rfl
    | resp r => simp [geo_ip, h r rfl]

/-- Witness for C3 at a concrete non-success response. -/
theorem geo_ip_failure_all_absent_witness :
    ((GeoOutcome.resp ⟨some "fail", some 1, some 2, some "a", some "b", some "c"⟩)
        = GeoOutcome.exn ∨
      ∀ r, (GeoOutcome.resp ⟨some "fail", some 1, some 2, some "a", some "b", some "c"⟩)
        = GeoOutcome.resp r → r.status ≠ some "success") ∧
    geo_ip (.resp ⟨some "fail", some 1, some 2, some "a", some "b", some "c"⟩)
      = (none, none, none, none, none) :=
  ⟨Or.inr (fun r hr => by cases hr; decide),
   geo_ip_failure_all_absent _ (Or.inr (fun r hr => by cases hr; decide))⟩

/-- C4: from any store state, N `insert_hit` calls (with pairwise-distinct
document references) followed by `fetch_hits` at limit N return exactly
the N new rows, newest (highest id) first; `fetch_hits` never returns more
rows than its limit, whose Python default is 1000. -/
theorem record_then_recent (db : HitsDB) (l : List HitArgs) (lim : Nat)
    (hdistinct : (l.map HitArgs.doc_ref).Nodup) :
    fetch_hits (insertMany db l) l.length = (mkRows db.nextId l).reverse ∧
    (fetch_hits db lim).length ≤ lim ∧
    fetch_hits_default db = fetch_hits db 1000 := by
  refine ⟨?_, ?_, rfl⟩
  · unfold fetch_hits
    rw [insertMany_rows, List.reverse_append]
    have hlen : (mkRows db.nextId l).reverse.length = l.length := by
      simp [mkRows_length]
    rw [← hlen, List.take_left]
  · simp [fetch_hits, List.length_take]

/-- Witness for C4: two inserts with distinct identifiers on the empty
store. -/
theorem record_then_recent_witness :
    (([argA, argB].map HitArgs.doc_ref).Nodup) ∧
    (fetch_hits (insertMany db0 [argA, argB]) 2 = (mkRows db0.nextId [argA, argB]).reverse ∧
     (fetch_hits db0 5).length ≤ 5 ∧
     fetch_hits_default db0 = fetch_hits db0 1000) :=
  ⟨by decide, record_then_recent db0 [argA, argB] 5 (by decide)⟩

/-- C5: for any image dimensions `iw × ih` (positive), the produced PDF is
a single page on which the image is drawn at scale
`min ((612-72)/iw) ((792-72)/ih)`, uniformly (aspect ratio preserved),
fitting the 36pt margins, and centered both horizontally and vertically on
the 612×792 US-Letter page. -/
theorem pdf_layout_letter_centered (iw ih : ℚ) (url : Option String)
    (hw : 0 < iw) (hh : 0 < ih) :
    (create_pdf_with_clickable_image iw ih url).pages = 1 ∧
    (create_pdf_with_clickable_image iw ih url).scale
        = min ((612 - 72) / iw) ((792 - 72) / ih) ∧
    (create_pdf_with_clickable_image iw ih url).image.draw_w
        = iw * (create_pdf_with_clickable_image iw ih url).scale ∧
    (create_pdf_with_clickable_image iw ih url).image.draw_h
        = ih * (create_pdf_with_clickable_image iw ih url).scale ∧
    (create_pdf_with_clickable_image iw ih url).image.draw_w * ih
        = (create_pdf_with_clickable_image iw ih url).image.draw_h * iw ∧
    (create_pdf_with_clickable_image iw ih url).image.draw_w ≤ 612 - 72 ∧
    (create_pdf_with_clickable_image iw ih url).image.draw_h ≤ 792 - 72 ∧
    (create_pdf_with_clickable_image iw ih url).image.x
        = 612 - ((create_pdf_with_clickable_image iw ih url).image.x
            + (create_pdf_with_clickable_image iw ih url).image.draw_w) ∧
    (create_pdf_with_clickable_image iw ih url).image.y
        = 792 - ((create_pdf_with_clickable_image iw ih url).image.y
            + (create_pdf_with_clickable_image iw ih url).image.draw_h) := by
  refine ⟨rfl, ?_, rfl, rfl, ?_, ?_, ?_, ?_, ?_⟩
  · show min ((letterW - 2 * 36) / iw) ((letterH - 2 * 36) / ih) = _
    norm_num [letterW, letterH]
  · show (iw * min ((letterW - 2 * 36) / iw) ((letterH - 2 * 36) / ih)) * ih
        = (ih * min ((letterW - 2 * 36) / iw) ((letterH - 2 * 36) / ih)) * iw
    ring
  · show iw * min ((letterW - 2 * 36) / iw) ((letterH - 2 * 36) / ih) ≤ 612 - 72
    have h : (letterW - 2 * 36 : ℚ) = 612 - 72 := by norm_num [letterW]
    rw [h]
    exact scaleFitLeft iw _ _ hw
  · show ih * min ((letterW - 2 * 36) / iw) ((letterH - 2 * 36) / ih) ≤ 792 - 72
    have h : (letterH - 2 * 36 : ℚ) = 792 - 72 := by norm_num [letterH]
    rw [h]
    exact scaleFitRight ih _ _ hh
  · show (letterW - iw * min ((letterW - 2 * 36) / iw) ((letterH - 2 * 36) / ih)) / 2
        = 612 - ((letterW - iw * min ((letterW - 2 * 36) / iw) ((letterH - 2 * 36) / ih)) / 2
            + iw * min ((letterW - 2 * 36) / iw) ((letterH - 2 * 36) / ih))
    rw [show (letterW : ℚ) = 612 from rfl]
    ring
  · show (letterH - ih * min ((letterW - 2 * 36) / iw) ((letterH - 2 * 36) / ih)) / 2
        = 792 - ((letterH - ih * min ((letterW - 2 * 36) / iw) ((letterH - 2 * 36) / ih)) / 2
            + ih * min ((letterW - 2 * 36) / iw) ((letterH - 2 * 36) / ih))
    rw [show (letterH : ℚ) = 792 from rfl]
    ring

/-- Witness for C5 at a 400×300 image (the spec's own scenario). -/
theorem pdf_layout_letter_centered_witness :
    (0 : ℚ) < 400 ∧ (0 : ℚ) < 300 ∧
    ((create_pdf_with_clickable_image 400 300 none).pages = 1 ∧
     (create_pdf_with_clickable_image 400 300 none).scale
        = min ((612 - 72) / 400) ((792 - 72) / 300) ∧
     (create_pdf_with_clickable_image 400 300 none).image.draw_w
        = 400 * (create_pdf_with_clickable_image 400 300 none).scale ∧
     (create_pdf_with_clickable_image 400 300 none).image.draw_h
        = 300 * (create_pdf_with_clickable_image 400 300 none).scale ∧
     (create_pdf_with_clickable_image 400 300 none).image.draw_w * 300
        = (create_pdf_with_clickable_image 400 300 none).image.draw_h * 400 ∧
     (create_pdf_with_clickable_image 400 300 none).image.draw_w ≤ 612 - 72 ∧
     (create_pdf_with_clickable_image 400 300 none).image.draw_h ≤ 792 - 72 ∧
     (create_pdf_with_clickable_image 400 300 none).image.x
        = 612 - ((create_pdf_with_clickable_image 400 300 none).image.x
            + (create_pdf_with_clickable_image 400 300 none).image.draw_w) ∧
     (create_pdf_with_clickable_image 400 300 none).image.y
        = 792 - ((create_pdf_with_clickable_image 400 300 none).image.y
            + (create_pdf_with_clickable_image 400 300 none).image.draw_h)) :=
  ⟨by norm_num, by norm_num,
   pdf_layout_letter_centered 400 300 none (by norm_num) (by norm_num)⟩

/-- C6: whenever `make`'s POST branch succeeds, the produced PDF carries
exactly one `linkURL` annotation, its rectangle is exactly the drawn
image's bounding box `(x, y, x + draw_w, y + draw_h)`, and its target is
the tracking-redirect URL for this document — a string containing
`doc_ref`. -/
theorem pdf_single_link_matches_image (base doc_ref : String)
    (file : Option Upload) (res : MakeResult)
    (hres : make_post base doc_ref file = .ok res) :
    res.pdf.links =
      [((res.pdf.image.x, res.pdf.image.y,
         res.pdf.image.x + res.pdf.image.draw_w,
         res.pdf.image.y + res.pdf.image.draw_h),
        clickUrl base doc_ref)] ∧
    (∃ pre suf, clickUrl base doc_ref = pre ++ (doc_ref ++ suf)) := by
  constructor
  · cases hfile : makeBaseImage file with
    | error e => simp [make_post, hfile] at hres
    | ok img =>
        simp only [make_post, hfile, Except.ok.injEq] at hres
        subst hres
        simp [create_pdf_with_clickable_image]
  · exact ⟨base ++ "/click/", "", by simp [clickUrl]⟩

/-- Witness for C6: generation with no uploaded file. -/
theorem pdf_single_link_matches_image_witness :
    make_post "http://h" "ab12cd34" none = .ok res0 ∧
    (res0.pdf.links =
       [((res0.pdf.image.x, res0.pdf.image.y,
          res0.pdf.image.x + res0.pdf.image.draw_w,
          res0.pdf.image.y + res0.pdf.image.draw_h),
         clickUrl "http://h" "ab12cd34")] ∧
     ∃ pre suf, clickUrl "http://h" "ab12cd34" = pre ++ ("ab12cd34" ++ suf)) :=
  ⟨rfl, pdf_single_link_matches_image "http://h" "ab12cd34" none res0 rfl⟩

/-- C7: with no uploaded file, `make` synthesizes an 800×600 white, fully
opaque RGBA canvas; with an uploaded file (non-empty filename) whose bytes
do not decode, the decoding error propagates (no `.ok` result — in
particular the blank canvas is never substituted). -/
theorem make_blank_canvas_and_decode_error (fname : String) (hf : fname ≠ "") :
    makeBaseImage none = .ok ⟨800, 600, "RGBA", some (255, 255, 255, 255)⟩ ∧
    makeBaseImage (some (.corrupt fname)) = .error "UnidentifiedImageError" ∧
    (makeBaseImage (some (.corrupt fname))).isOk = false := by
  refine ⟨rfl, ?_, ?_⟩ <;> simp [makeBaseImage, hf, Except.isOk, Except.toBool]

/-- Witness for C7 at the filename "evil.png". -/
theorem make_blank_canvas_and_decode_error_witness :
    ("evil.png" ≠ "") ∧
    (makeBaseImage none = .ok ⟨800, 600, "RGBA", some (255, 255, 255, 255)⟩ ∧
     makeBaseImage (some (.corrupt "evil.png")) = .error "UnidentifiedImageError" ∧
     (makeBaseImage (some (.corrupt "evil.png"))).isOk = false) :=
  ⟨by decide, make_blank_canvas_and_decode_error "evil.png" (by decide)⟩

/-- C8: a login attempt with a wrong password leaves the session exactly
as it was — in particular the `admin` flag stays `false` — and a
subsequent request to `make` still hits the redirect-to-login gate. -/
theorem wrong_password_frame (adminPass pw : String) (s : Session)
    (hpw : pw ≠ adminPass) (hadmin : s.admin = false) :
    (login_post adminPass s pw).1 = s ∧
    (login_post adminPass s pw).2 = .flashAndRender "Wrong password" "login.html" ∧
    (login_post adminPass s pw).1.admin = false ∧
    make_gate (login_post adminPass s pw).1 = some (.redirectTo "login") := by
  simp [login_post, hpw, make_gate, hadmin]

/-- Witness for C8: wrong password "letmein" against the default admin
password, starting from a fresh session. -/
theorem wrong_password_frame_witness :
    ("letmein" ≠ ADMIN_PASS_default) ∧ ((⟨false, none⟩ : Session).admin = false) ∧
    ((login_post ADMIN_PASS_default ⟨false, none⟩ "letmein").1 = ⟨false, none⟩ ∧
     (login_post ADMIN_PASS_default ⟨false, none⟩ "letmein").2
        = .flashAndRender "Wrong password" "login.html" ∧
     (login_post ADMIN_PASS_default ⟨false, none⟩ "letmein").1.admin = false ∧
     make_gate (login_post ADMIN_PASS_default ⟨false, none⟩ "letmein").1
        = some (.redirectTo "login")) :=
  ⟨by decide, by decide,
   wrong_password_frame ADMIN_PASS_default "letmein" ⟨false, none⟩ (by decide) (by decide)⟩

/-- C9: `dl_pdf` inserts the hit row before it checks whether the
requested PDF exists, so even when the path is absent the response is
not-found *and* the store has gained exactly that one row. -/
theorem dl_pdf_records_before_existence_check
    (st : AppState) (doc_ref pdfname : String) (ctx : RouteCtx)
    (hmiss : joinPath OUTDIR pdfname ∉ st.files) :
    (dl_pdf st doc_ref pdfname ctx).2 = .notFound ∧
    (dl_pdf st doc_ref pdfname ctx).1.db.rows
      = st.db.rows ++ [mkRow st.db.nextId (hitArgsOf doc_ref ctx)] := by
  simp [dl_pdf, hmiss, insert_hit]

/-- Witness for C9: requesting a PDF from a state with no files on disk. -/
theorem dl_pdf_records_before_existence_check_witness :
    joinPath OUTDIR "document_ab12.pdf" ∉ stEmpty.files ∧
    ((dl_pdf stEmpty "ab12" "document_ab12.pdf" ctx0).2 = .notFound ∧
     (dl_pdf stEmpty "ab12" "document_ab12.pdf" ctx0).1.db.rows
       = stEmpty.db.rows ++ [mkRow stEmpty.db.nextId (hitArgsOf "ab12" ctx0)]) :=
  ⟨by decide,
   dl_pdf_records_before_existence_check stEmpty "ab12" "document_ab12.pdf" ctx0 (by decide)⟩

/-- C10: for any `doc_ref` and any existing `pdfname` — with no check that
the two correspond — `dl_pdf` streams the file named by `pdfname` while the
recorded hit row carries `doc_ref`. -/
theorem dl_pdf_doc_ref_pdfname_independent
    (st : AppState) (doc_ref pdfname : String) (ctx : RouteCtx)
    (hex : joinPath OUTDIR pdfname ∈ st.files) :
    (dl_pdf st doc_ref pdfname ctx).2
      = .sendFile (joinPath OUTDIR pdfname) pdfname "application/pdf" ∧
    (dl_pdf st doc_ref pdfname ctx).1.db.rows
      = st.db.rows ++ [mkRow st.db.nextId (hitArgsOf doc_ref ctx)] ∧
    (mkRow st.db.nextId (hitArgsOf doc_ref ctx)).doc_ref = doc_ref := by
  simp [dl_pdf, hex, insert_hit, mkRow, hitArgsOf]

/-- Witness for C10: a `doc_ref` unrelated to the streamed file's name. -/
theorem dl_pdf_doc_ref_pdfname_independent_witness :
    joinPath OUTDIR "document_ab12.pdf" ∈ stWithPdf.files ∧
    ((dl_pdf stWithPdf "zzzzzzzz" "document_ab12.pdf" ctx0).2
       = .sendFile (joinPath OUTDIR "document_ab12.pdf") "document_ab12.pdf"
           "application/pdf" ∧
     (dl_pdf stWithPdf "zzzzzzzz" "document_ab12.pdf" ctx0).1.db.rows
       = stWithPdf.db.rows
           ++ [mkRow stWithPdf.db.nextId (hitArgsOf "zzzzzzzz" ctx0)] ∧
     (mkRow stWithPdf.db.nextId (hitArgsOf "zzzzzzzz" ctx0)).doc_ref = "zzzzzzzz") :=
  ⟨by decide,
   dl_pdf_doc_ref_pdfname_independent stWithPdf "zzzzzzzz" "document_ab12.pdf" ctx0
     (by decide)⟩

/-- C1 (amended): the tracking redirect and the direct PDF download
(`dl_pdf`) each append exactly one hit row — built from the geolocation
lookup's result — before their redirect/file response; the plain artifact
download `download_generated` records no hit and leaves the state
untouched. -/
theorem delivery_hit_recording
    (st : AppState) (doc_ref pdfname name : String) (ctx : RouteCtx) :
    (clickable_redirect st doc_ref ctx).1.db.rows
      = st.db.rows ++ [mkRow st.db.nextId (hitArgsOf doc_ref ctx)] ∧
    (clickable_redirect st doc_ref ctx).2
      = .externalRedirect "https://your-site.com/thank-you" ∧
    (dl_pdf st doc_ref pdfname ctx).1.db.rows
      = st.db.rows ++ [mkRow st.db.nextId (hitArgsOf doc_ref ctx)] ∧
    (download_generated st name).1 = st := by
  refine ⟨by simp [clickable_redirect, insert_hit], rfl, ?_, ?_⟩
  · by_cases h : joinPath OUTDIR pdfname ∈ st.files <;>
      simp [dl_pdf, h, insert_hit]
  · by_cases h : joinPath OUTDIR name ∈ st.files <;>
      simp [download_generated, h]

/-- Counterexample to C1 as stated: a direct artifact download through
`download_generated` returns the artifact yet appends no hit row at all
(the store is unchanged, so in particular it does not grow by one). -/
theorem download_generated_serves_without_hit :
    (download_generated stWithPng "document_ab12.png").2
      = .sendFile "generated/document_ab12.png" "document_ab12.png" "image/png" ∧
    (download_generated stWithPng "document_ab12.png").1.db = stWithPng.db ∧
    ¬((download_generated stWithPng "document_ab12.png").1.db.rows.length
        = stWithPng.db.rows.length + 1) := by
  refine ⟨?_, ?_, ?_⟩ <;> decide

/-- C2: the download operations build the served path with
`os.path.join(OUTDIR, name)` and never validate `name`, so a caller can
escape the storage root: an absolute `pdfname` discards the output
directory entirely and the file at that outside path is streamed, and a
`..` component steps out of the root. -/
theorem dl_path_escapes_outdir :
    joinPath OUTDIR "/etc/passwd" = "/etc/passwd" ∧
    insideDir OUTDIR (joinPath OUTDIR "/etc/passwd") = false ∧
    insideDir OUTDIR (joinPath OUTDIR "../hits.db") = false ∧
    (dl_pdf stOutside "d" "/etc/passwd" ctx0).2
      = .sendFile "/etc/passwd" "/etc/passwd" "application/pdf" ∧
    (download_generated stOutside "/etc/passwd").2
      = .sendFile "/etc/passwd" "/etc/passwd" "application/octet-stream" := by
  refine ⟨?_, ?_, ?_, ?_, ?_⟩ <;> decide

end ImageTracker
